import Mathlib

/-!
Shallow embedding of the LLM-based clinical decision support pipeline
(`src/app.py`).  The remote completion service is modelled as a behaviour
`Llm : Nat → Request → Option String` mapping the index of a call (in issue
order) and the request to either `some text` (the completion succeeded with
that text) or `none` (the call raised an exception).  State threaded through
the pipeline records the next call index, the list of requests issued so far,
and the caller-owned question data (threaded explicitly so that absence of
mutation is a provable fact rather than a modelling assumption).  Python
dicts are embedded as ordered association lists (insertion order), with
`dictInsert` implementing dict assignment: an existing key keeps its position
and gets the new value, a fresh key is appended.
-/

/-- Sentinel text returned in place of a completion when the remote call
raises (`"No valid response generated."` in `src/app.py`). -/
def noValidResponse : String := "No valid response generated."

/-- The fixed model identifier passed to every completion call. -/
def modelName : String := "nvidia/llama-3.1-nemotron-70b-instruct"

/-- `QuestionInput`: the question text plus the ordered label → option-text
mapping, as assembled from the form (`question_data` in `src/app.py`). -/
structure QuestionInput where
  question : String
  options : List (String × String)
deriving DecidableEq

/-- One remote completion request: the arguments of
`client.chat.completions.create` in `src/app.py` (messages are role/content
pairs). -/
structure Request where
  model : String
  messages : List (String × String)
  temperature : ℚ
  top_p : ℚ
  max_tokens : Nat
  stream : Bool
deriving DecidableEq

/-- A behaviour of the remote-call layer: for each call index (in issue
order) and request, either `some text` (success) or `none` (the call raised
an exception). -/
abbrev Llm : Type := Nat → Request → Option String

/-- State threaded through one pipeline invocation: the caller-owned
question data, the index of the next remote call, and the requests issued so
far (in order). -/
structure PipeState where
  questionData : QuestionInput
  idx : Nat
  trace : List Request

/-- One remote completion call: look up the behaviour at the current call
index, record the request in the trace, and advance the index.  The request
is recorded whether or not the call succeeds (a failing call is still
issued). -/
def createChatCompletion (llm : Llm) (req : Request) (s : PipeState) :
    Option String × PipeState :=
  (llm s.idx req, { s with idx := s.idx + 1, trace := s.trace ++ [req] })

/-- Python dict assignment `m[k] = v` on an ordered association list: an
existing key keeps its position and gets the new value, a fresh key is
appended. -/
def dictInsert (m : List (String × String)) (k v : String) :
    List (String × String) :=
  if m.any (fun kv => kv.1 == k) then
    m.map (fun kv => if kv.1 == k then (k, v) else kv)
  else
    m ++ [(k, v)]

/-- Python `sep.join(xs)`: the elements of `xs` concatenated with `sep`
between consecutive elements. -/
def joinWith (sep : String) : List String → String
  | [] => ""
  | [x] => x
  | x :: y :: rest => x ++ sep ++ joinWith sep (y :: rest)

/-- The single-quote character, used by Python `repr` of strings. -/
def singleQuote : Char := Char.ofNat 39

/-- The double-quote character, used by Python `repr` of strings containing
a single quote and no double quote. -/
def doubleQuote : Char := Char.ofNat 34

/-- Python `repr` escaping of one character under the chosen quote
character: backslash, the quote character, newline, carriage return and tab
are escaped, other characters pass through. -/
def pyEscapeChar (quote c : Char) : String :=
  if c = Char.ofNat 92 then String.mk [Char.ofNat 92, Char.ofNat 92]
  else if c = quote then String.mk [Char.ofNat 92, quote]
  else if c = Char.ofNat 10 then String.mk [Char.ofNat 92, Char.ofNat 110]
  else if c = Char.ofNat 13 then String.mk [Char.ofNat 92, Char.ofNat 114]
  else if c = Char.ofNat 9 then String.mk [Char.ofNat 92, Char.ofNat 116]
  else String.mk [c]

/-- Python `repr` of a string: single-quoted unless the string contains a
single quote and no double quote, with `pyEscapeChar` applied to each
character. -/
def pyRepr (s : String) : String :=
  let quote :=
    if s.data.contains singleQuote && !(s.data.contains doubleQuote) then doubleQuote
    else singleQuote
  String.mk [quote] ++ String.join (s.data.map (pyEscapeChar quote)) ++
    String.mk [quote]

/-- The single-quote character as a one-character string (used to state what
the dict rendering looks like). -/
def quoteS : String := String.mk [singleQuote]

/-- Python `str` of a dict of strings (the language's default
mapping-to-string conversion, as produced by interpolating a dict into an
f-string): brace-delimited, comma-separated `repr(key): repr(value)`
entries in mapping order. -/
def pyStrDict (m : List (String × String)) : String :=
  "\x7b" ++ joinWith ", " (m.map (fun kv => pyRepr kv.1 ++ ": " ++ pyRepr kv.2)) ++
    "\x7d"

namespace GeneratorAgent

/-- `GeneratorAgent.extract_options`: newline-joined `"label: text"` lines,
one per options entry, in mapping order. -/
def extract_options (options : List (String × String)) : String :=
  joinWith "\n" (options.map (fun kv => kv.1 ++ ": " ++ kv.2))

/-- The prompt built by `GeneratorAgent.generate_initial_response` from the
question text and the formatted options. -/
def initialPrompt (question options : String) : String :=
  "Question:\n" ++ question ++ "\n\nOptions:\n" ++ options ++
    "\n\nYou are a medical expert with wide range of knowledge, your each and every decision and answer is crucial and must be accurate and onpoint , refer internet and all the available knowledge resources and analyze each option carefully and select only one best option (A, B, C, D, or E) which you think its right according to the question. Explain your reasoning in very short and crisp points."

/-- The remote request issued by `GeneratorAgent.generate_initial_response`:
temperature 0.5, top-p 1, at most 500 tokens, non-streaming. -/
def initialRequest (question_data : QuestionInput) : Request :=
  { model := modelName
    messages :=
      [("user", initialPrompt question_data.question (extract_options question_data.options))]
    temperature := 1 / 2
    top_p := 1
    max_tokens := 500
    stream := false }

/-- `GeneratorAgent.generate_initial_response`: read the question data from
the caller-owned state, issue one completion request, and return its text,
or the sentinel if the call raised. -/
def generate_initial_response (llm : Llm) (s : PipeState) : String × PipeState :=
  match createChatCompletion llm (initialRequest s.questionData) s with
  | (some text, s') => (text, s')
  | (none, s') => (noValidResponse, s')

end GeneratorAgent

namespace VerifierAgent

/-- The fixed ordered list of 8 probing questions held by
`VerifierAgent.__init__`. -/
def probing_questions : List String :=
  ["What are the key factors that led you to this conclusion by ruling out the other options?",
   "Can you identify any potential weaknesses in your reasoning?",
   "What alternative explanations might exist for this scenario?",
   "How might your answer change if [insert relevant detail] was different?",
   "On a scale of 1-10, how certain are you of this answer, and why?",
   "What additional information would help you be more confident in your answer?",
   "What are the potential consequences if this answer is incorrect?",
   "How does your answer align with standard medical practices or guidelines?"]

/-- The per-probe prompt built by `VerifierAgent.probe_response` from the
question, the initial response and the probe text. -/
def probingPrompt (question initial_response probe : String) : String :=
  question ++ "\n\nInitial response: " ++ initial_response ++ "\n\n" ++ probe ++
    "\n\nJust answer the probing questions in short and crisp points. No need for further explanation."

/-- The remote request issued for one probe: temperature 0.5, top-p 1, at
most 300 tokens, non-streaming. -/
def probingRequest (question initial_response probe : String) : Request :=
  { model := modelName
    messages := [("user", probingPrompt question initial_response probe)]
    temperature := 1 / 2
    top_p := 1
    max_tokens := 300
    stream := false }

/-- The body of the `for probe in self.probing_questions` loop of
`VerifierAgent.probe_response`: issue one completion per probe, storing the
response text (or the sentinel on failure) under the probe's exact text. -/
def probeLoop (llm : Llm) (question initial_response : String) :
    List String → List (String × String) → PipeState →
      List (String × String) × PipeState
  | [], probing_results, s => (probing_results, s)
  | probe :: rest, probing_results, s =>
    match createChatCompletion llm (probingRequest question initial_response probe) s with
    | (some text, s') =>
      probeLoop llm question initial_response rest
        (dictInsert probing_results probe text) s'
    | (none, s') =>
      probeLoop llm question initial_response rest
        (dictInsert probing_results probe noValidResponse) s'

/-- `VerifierAgent.probe_response`: run the probe loop over the fixed probe
list, starting from an empty results dict. -/
def probe_response (llm : Llm) (question initial_response : String)
    (s : PipeState) : List (String × String) × PipeState :=
  probeLoop llm question initial_response probing_questions [] s

end VerifierAgent

namespace ReasonerAgent

/-- `ReasonerAgent.analyze_probing_results`: build a fresh dict assigning to
each probing key the string `"Analysis of: "` followed by the stored
response, iterating the probing results in order. -/
def analyze_probing_results (probing_results : List (String × String)) :
    List (String × String) :=
  probing_results.foldl
    (fun analysis kv => dictInsert analysis kv.1 ("Analysis of: " ++ kv.2)) []

/-- The prompt built by `ReasonerAgent.generate_final_assessment`, embedding
the analysis dict through Python's default dict-to-string conversion. -/
def finalPrompt (question initial_response : String)
    (analysis : List (String × String)) : String :=
  "Question: " ++ question ++ "\n\nInitial response: " ++ initial_response ++
    "\n\nBased on the following analysis, provide a final assessment and select only one best and the correct option (A, B, C, D, or E):\n" ++
    pyStrDict analysis

/-- The remote request issued by `ReasonerAgent.generate_final_assessment`:
temperature 0.5, top-p 1, at most 500 tokens, non-streaming. -/
def finalRequest (question initial_response : String)
    (analysis : List (String × String)) : Request :=
  { model := modelName
    messages := [("user", finalPrompt question initial_response analysis)]
    temperature := 1 / 2
    top_p := 1
    max_tokens := 500
    stream := false }

/-- `ReasonerAgent.generate_final_assessment`: issue one completion request
and return its text, or the sentinel if the call raised. -/
def generate_final_assessment (llm : Llm) (question initial_response : String)
    (analysis : List (String × String)) (s : PipeState) : String × PipeState :=
  match createChatCompletion llm (finalRequest question initial_response analysis) s with
  | (some text, s') => (text, s')
  | (none, s') => (noValidResponse, s')

end ReasonerAgent

/-- `PipelineOutput` (`formatted_output` in `src/app.py`): question, initial
response, probing results dict, final assessment. -/
structure PipelineOutput where
  question : String
  initial_response : String
  probing_results : List (String × String)
  final_assessment : String
deriving DecidableEq

/-- `process_question_with_agents`: the three-stage pipeline — generate the
initial response, probe it with the 8 fixed questions, analyze the probing
results and synthesize the final assessment — returning the formatted output
together with the final threaded state (question data, call count, request
trace). -/
def process_question_with_agents (llm : Llm) (question_data : QuestionInput) :
    PipelineOutput × PipeState :=
  let s0 : PipeState := { questionData := question_data, idx := 0, trace := [] }
  let r1 := GeneratorAgent.generate_initial_response llm s0
  let initial_response := r1.1
  let s1 := r1.2
  let r2 := VerifierAgent.probe_response llm s1.questionData.question initial_response s1
  let probing_results := r2.1
  let s2 := r2.2
  let analysis := ReasonerAgent.analyze_probing_results probing_results
  let r3 := ReasonerAgent.generate_final_assessment llm s2.questionData.question
    initial_response analysis s2
  let final_assessment := r3.1
  let s3 := r3.2
  ({ question := s3.questionData.question
     initial_response := initial_response
     probing_results := probing_results
     final_assessment := final_assessment }, s3)

/-- The text a stage stores for one completion outcome: the response text on
success, the sentinel on failure. -/
def respText : Option String → String
  | some t => t
  | none => noValidResponse

/-- Specification form of one probe's stored answer: the behaviour's text at
the probe's call index and request, with the sentinel substituted on
failure. -/
def probeAnswer (llm : Llm) (question initial_response : String) (n : Nat)
    (probe : String) : String :=
  respText (llm n (VerifierAgent.probingRequest question initial_response probe))

/-- Specification form of the probe loop's results: one entry per probe, in
list order, with consecutive call indices starting at `n`. -/
def probeSpecList (llm : Llm) (question initial_response : String) :
    Nat → List String → List (String × String)
  | _, [] => []
  | n, probe :: rest =>
    (probe, probeAnswer llm question initial_response n probe) ::
      probeSpecList llm question initial_response (n + 1) rest

/-- The initial response produced by the pipeline for a given behaviour:
call index 0. -/
def genAnswer (llm : Llm) (qd : QuestionInput) : String :=
  respText (llm 0 (GeneratorAgent.initialRequest qd))

/-- The probing-results dict produced by the pipeline: the 8 probes at call
indices 1 through 8. -/
def pipeProbes (llm : Llm) (qd : QuestionInput) : List (String × String) :=
  probeSpecList llm qd.question (genAnswer llm qd) 1 VerifierAgent.probing_questions

/-- The analysis dict produced by the pipeline. -/
def pipeAnalysis (llm : Llm) (qd : QuestionInput) : List (String × String) :=
  ReasonerAgent.analyze_probing_results (pipeProbes llm qd)

/-- The synthesize request issued by the pipeline: call index 9. -/
def pipeFinalRequest (llm : Llm) (qd : QuestionInput) : Request :=
  ReasonerAgent.finalRequest qd.question (genAnswer llm qd) (pipeAnalysis llm qd)

/-- The final assessment produced by the pipeline. -/
def pipeFinal (llm : Llm) (qd : QuestionInput) : String :=
  respText (llm 9 (pipeFinalRequest llm qd))

/-- The full request trace of one pipeline invocation: the generate request,
the 8 probe requests in probe-list order, the synthesize request. -/
def pipeTrace (llm : Llm) (qd : QuestionInput) : List Request :=
  GeneratorAgent.initialRequest qd ::
    (VerifierAgent.probing_questions.map
        (VerifierAgent.probingRequest qd.question (genAnswer llm qd)) ++
      [pipeFinalRequest llm qd])

/-- Concrete behaviour that answers every call with `"OK"`. -/
def llmOk : Llm := fun _ _ => some "OK"

/-- Concrete behaviour in which every call raises. -/
def llmNone : Llm := fun _ _ => none

/-- Concrete behaviour in which exactly call index 1 (the first probe)
raises and every other call answers `"OK"`. -/
def llmFailAt1 : Llm := fun n _ => if n = 1 then none else some "OK"

/-- A concrete question input used to instantiate theorems. -/
def qdSample : QuestionInput :=
  { question := "Patient presents with fever and rash"
    options := [("A", "Measles"), ("B", "Scarlet fever")] }

/-- A concrete probing-results mapping used to instantiate theorems. -/
def resultsSample : List (String × String) := [("a", "x"), ("b", "y")]

theorem dictInsert_of_fresh (m : List (String × String)) (k v : String)
    (h : ∀ kv ∈ m, kv.1 ≠ k) : dictInsert m k v = m ++ [(k, v)] := by
  have hany : m.any (fun kv => kv.1 == k) = false := by
    simp only [List.any_eq_false, beq_iff_eq]
    exact h
  simp [dictInsert, hany]

theorem generate_initial_response_eq (llm : Llm) (s : PipeState) :
    GeneratorAgent.generate_initial_response llm s =
      (respText (llm s.idx (GeneratorAgent.initialRequest s.questionData)),
       { s with idx := s.idx + 1,
                trace := s.trace ++ [GeneratorAgent.initialRequest s.questionData] }) := by
  unfold GeneratorAgent.generate_initial_response createChatCompletion
  cases llm s.idx (GeneratorAgent.initialRequest s.questionData) <;> rfl

theorem generate_final_assessment_eq (llm : Llm) (question initial_response : String)
    (analysis : List (String × String)) (s : PipeState) :
    ReasonerAgent.generate_final_assessment llm question initial_response analysis s =
      (respText (llm s.idx (ReasonerAgent.finalRequest question initial_response analysis)),
       { s with idx := s.idx + 1,
                trace := s.trace ++ [ReasonerAgent.finalRequest question initial_response analysis] }) := by
  unfold ReasonerAgent.generate_final_assessment createChatCompletion
  cases llm s.idx (ReasonerAgent.finalRequest question initial_response analysis) <;> rfl

theorem probeLoop_eq (llm : Llm) (question initial_response : String) :
    ∀ (ps : List String) (acc : List (String × String)) (qd : QuestionInput)
      (i : Nat) (tr : List Request),
      ps.Nodup →
      (∀ p ∈ ps, ∀ kv ∈ acc, kv.1 ≠ p) →
      VerifierAgent.probeLoop llm question initial_response ps acc ⟨qd, i, tr⟩ =
        (acc ++ probeSpecList llm question initial_response i ps,
         ⟨qd, i + ps.length,
          tr ++ ps.map (VerifierAgent.probingRequest question initial_response)⟩) := by
  intro ps
  induction ps with
  | nil =>
    intro acc qd i tr _ _
    simp [VerifierAgent.probeLoop, probeSpecList]
  | cons p rest ih =>
    intro acc qd i tr hnd hdisj
    have hfresh : ∀ kv ∈ acc, kv.1 ≠ p :=
      fun kv hkv => hdisj p (List.mem_cons_self p rest) kv hkv
    have hnd' : rest.Nodup := (List.nodup_cons.mp hnd).2
    have hpnotin : p ∉ rest := (List.nodup_cons.mp hnd).1
    have hdisj' : ∀ (v : String), ∀ q ∈ rest, ∀ kv ∈ acc ++ [(p, v)], kv.1 ≠ q := by
      intro v q hq kv hkv
      rcases List.mem_append.mp hkv with hkv | hkv
      · exact hdisj q (List.mem_cons_of_mem _ hq) kv hkv
      · have hkvp : kv = (p, v) := List.mem_singleton.mp hkv
        rw [hkvp]
        intro hpq
        have hpq2 : p = q := hpq
        exact hpnotin (by rw [hpq2]; exact hq)
    cases hcall : llm i (VerifierAgent.probingRequest question initial_response p) with
    | some text =>
      simp only [VerifierAgent.probeLoop, createChatCompletion, hcall]
      rw [dictInsert_of_fresh _ _ _ hfresh,
        ih (acc ++ [(p, text)]) qd (i + 1) (tr ++ [VerifierAgent.probingRequest question initial_response p]) hnd' (hdisj' text)]
      simp [probeSpecList, probeAnswer, respText, hcall, List.append_assoc]
      all_goals omega
    | none =>
      simp only [VerifierAgent.probeLoop, createChatCompletion, hcall]
      rw [dictInsert_of_fresh _ _ _ hfresh,
        ih (acc ++ [(p, noValidResponse)]) qd (i + 1) (tr ++ [VerifierAgent.probingRequest question initial_response p]) hnd' (hdisj' noValidResponse)]
      simp [probeSpecList, probeAnswer, respText, hcall, List.append_assoc]
      all_goals omega

theorem probeSpecList_map_fst (llm : Llm) (question initial_response : String) :
    ∀ (ps : List String) (n : Nat),
      (probeSpecList llm question initial_response n ps).map Prod.fst = ps := by
  intro ps
  induction ps with
  | nil => intro n; rfl
  | cons p rest ih => intro n; simp [probeSpecList, ih (n + 1)]

theorem probeSpecList_length (llm : Llm) (question initial_response : String) :
    ∀ (ps : List String) (n : Nat),
      (probeSpecList llm question initial_response n ps).length = ps.length := by
  intro ps
  induction ps with
  | nil => intro n; rfl
  | cons p rest ih => intro n; simp [probeSpecList, ih (n + 1)]

theorem probeSpecList_getElem (llm : Llm) (question initial_response : String) :
    ∀ (ps : List String) (n i : Nat),
      (probeSpecList llm question initial_response n ps)[i]? =
        ps[i]?.map (fun p => (p, probeAnswer llm question initial_response (n + i) p)) := by
  intro ps
  induction ps with
  | nil => intro n i; simp [probeSpecList]
  | cons p rest ih =>
    intro n i
    cases i with
    | zero => simp [probeSpecList]
    | succ j =>
      simp only [probeSpecList, List.getElem?_cons_succ, ih (n + 1) j]
      have harith : n + 1 + j = n + (j + 1) := by omega
      rw [harith]

theorem probeSpecList_all_fail (llm : Llm) (question initial_response : String)
    (hfail : ∀ n r, llm n r = none) :
    ∀ (ps : List String) (n : Nat),
      ∀ kv ∈ probeSpecList llm question initial_response n ps,
        kv.2 = noValidResponse := by
  intro ps
  induction ps with
  | nil => intro n kv hkv; simp [probeSpecList] at hkv
  | cons p rest ih =>
    intro n kv hkv
    rcases List.mem_cons.mp hkv with hkv | hkv
    · rw [hkv]
      simp [probeAnswer, respText, hfail]
    · exact ih (n + 1) kv hkv

theorem probing_questions_nodup : VerifierAgent.probing_questions.Nodup := by
  decide

theorem probing_questions_length : VerifierAgent.probing_questions.length = 8 := by
  rfl

theorem probe_response_eq (llm : Llm) (question initial_response : String)
    (qd : QuestionInput) (i : Nat) (tr : List Request) :
    VerifierAgent.probe_response llm question initial_response ⟨qd, i, tr⟩ =
      (probeSpecList llm question initial_response i VerifierAgent.probing_questions,
       ⟨qd, i + 8,
        tr ++ VerifierAgent.probing_questions.map
          (VerifierAgent.probingRequest question initial_response)⟩) := by
  unfold VerifierAgent.probe_response
  rw [probeLoop_eq llm question initial_response VerifierAgent.probing_questions [] qd i tr
    probing_questions_nodup (by intro p _ kv hkv; simp at hkv)]
  simp [probing_questions_length]

theorem process_spec (llm : Llm) (qd : QuestionInput) :
    process_question_with_agents llm qd =
      ({ question := qd.question
         initial_response := genAnswer llm qd
         probing_results := pipeProbes llm qd
         final_assessment := pipeFinal llm qd },
       { questionData := qd, idx := 10, trace := pipeTrace llm qd }) := by
  simp only [process_question_with_agents]
  rw [generate_initial_response_eq]
  simp only []
  rw [probe_response_eq]
  simp only []
  rw [generate_final_assessment_eq]
  simp [genAnswer, pipeProbes, pipeAnalysis, pipeFinal, pipeFinalRequest, pipeTrace]

theorem analyze_foldl_eq :
    ∀ (r acc : List (String × String)),
      (r.map Prod.fst).Nodup →
      (∀ kv ∈ r, ∀ kv2 ∈ acc, kv2.1 ≠ kv.1) →
      r.foldl (fun analysis kv => dictInsert analysis kv.1 ("Analysis of: " ++ kv.2)) acc =
        acc ++ r.map (fun kv => (kv.1, "Analysis of: " ++ kv.2)) := by
  intro r
  induction r with
  | nil => intro acc _ _; simp
  | cons kv rest ih =>
    intro acc hnd hdisj
    have hfresh : ∀ kv2 ∈ acc, kv2.1 ≠ kv.1 :=
      fun kv2 h2 => hdisj kv (List.mem_cons_self _ _) kv2 h2
    have hnd' : (rest.map Prod.fst).Nodup := (List.nodup_cons.mp (by simpa using hnd)).2
    have hheadnotin : kv.1 ∉ rest.map Prod.fst :=
      (List.nodup_cons.mp (by simpa using hnd)).1
    have hdisj' : ∀ kv' ∈ rest, ∀ kv2 ∈ acc ++ [(kv.1, "Analysis of: " ++ kv.2)],
        kv2.1 ≠ kv'.1 := by
      intro kv' h' kv2 h2
      rcases List.mem_append.mp h2 with h2 | h2
      · exact hdisj kv' (List.mem_cons_of_mem _ h') kv2 h2
      · have hkv2 : kv2 = (kv.1, "Analysis of: " ++ kv.2) := List.mem_singleton.mp h2
        rw [hkv2]
        intro heq
        have heq2 : kv.1 = kv'.1 := heq
        exact hheadnotin (heq2 ▸ List.mem_map_of_mem Prod.fst h')
    simp only [List.foldl_cons]
    rw [dictInsert_of_fresh _ _ _ hfresh,
      ih (acc ++ [(kv.1, "Analysis of: " ++ kv.2)]) hnd' hdisj']
    simp

theorem analyze_eq_map (r : List (String × String)) (hnd : (r.map Prod.fst).Nodup) :
    ReasonerAgent.analyze_probing_results r =
      r.map (fun kv => (kv.1, "Analysis of: " ++ kv.2)) := by
  unfold ReasonerAgent.analyze_probing_results
  rw [analyze_foldl_eq r [] hnd (by intro kv _ kv2 h2; simp at h2)]
  simp

theorem lookup_map_value (f : String → String) :
    ∀ (r : List (String × String)) (k v : String),
      List.lookup k r = some v →
      List.lookup k (r.map (fun kv => (kv.1, f kv.2))) = some (f v) := by
  intro r
  induction r with
  | nil => intro k v h; simp [List.lookup] at h
  | cons kv rest ih =>
    intro k v h
    obtain ⟨a, b⟩ := kv
    simp only [List.map_cons, List.lookup] at h ⊢
    cases hak : (k == a) with
    | true =>
      rw [hak] at h
      simp at h
      simp [h]
    | false =>
      rw [hak] at h
      simp only [] at h
      exact ih k v h

/-- Claim C1: for every question input and every behaviour of the
remote-call layer (each call independently succeeding with arbitrary text or
failing), the probing-results mapping in the pipeline output has exactly 8
entries, keyed by the 8 fixed probe texts in probe-list order, and the entry
at position `i` holds the text returned by the probe's remote call, with the
sentinel substituted when that call failed (the entry is never omitted). -/
theorem probing_results_shape (llm : Llm) (qd : QuestionInput) :
    ((process_question_with_agents llm qd).1.probing_results).map Prod.fst =
      VerifierAgent.probing_questions ∧
    ((process_question_with_agents llm qd).1.probing_results).length = 8 ∧
    ∀ (i : Nat) (probe : String),
      VerifierAgent.probing_questions[i]? = some probe →
      ((process_question_with_agents llm qd).1.probing_results)[i]? =
        some (probe,
          match llm (1 + i)
              (VerifierAgent.probingRequest qd.question
                ((process_question_with_agents llm qd).1.initial_response) probe) with
          | some text => text
          | none => noValidResponse) := by
  refine ⟨?_, ?_, ?_⟩
  · rw [process_spec]
    exact probeSpecList_map_fst llm qd.question (genAnswer llm qd)
      VerifierAgent.probing_questions 1
  · rw [process_spec]
    show (pipeProbes llm qd).length = 8
    rw [pipeProbes, probeSpecList_length]
    rfl
  · intro i probe hp
    rw [process_spec]
    show (pipeProbes llm qd)[i]? = _
    rw [pipeProbes, probeSpecList_getElem, hp]
    cases hcall : llm (1 + i) (VerifierAgent.probingRequest qd.question (genAnswer llm qd) probe) with
    | some text => simp [probeAnswer, respText, hcall]
    | none => simp [probeAnswer, respText, hcall]

/-- Witness for C1 at a concrete behaviour and input: the first probe's
entry is its call's text. -/
theorem probing_results_shape_witness :
    VerifierAgent.probing_questions[0]? =
      some "What are the key factors that led you to this conclusion by ruling out the other options?" ∧
    ((process_question_with_agents llmOk qdSample).1.probing_results)[0]? =
      some ("What are the key factors that led you to this conclusion by ruling out the other options?",
        match llmOk 1
            (VerifierAgent.probingRequest qdSample.question
              ((process_question_with_agents llmOk qdSample).1.initial_response)
              "What are the key factors that led you to this conclusion by ruling out the other options?") with
        | some text => text
        | none => noValidResponse) :=
  ⟨rfl, (probing_results_shape llmOk qdSample).2.2 0 _ rfl⟩

/-- Claim C4: if the remote completion call issued by
`generate_initial_response` succeeds with text `T`, the function returns
exactly `T`, for every question data in the state (no post-processing of the
model output). -/
theorem generate_returns_model_text (llm : Llm) (s : PipeState) (T : String)
    (h : llm s.idx (GeneratorAgent.initialRequest s.questionData) = some T) :
    (GeneratorAgent.generate_initial_response llm s).1 = T := by
  rw [generate_initial_response_eq]
  show respText (llm s.idx (GeneratorAgent.initialRequest s.questionData)) = T
  rw [h]
  rfl

/-- Witness for C4: with a behaviour answering `"OK"`, the generator returns
`"OK"`. -/
theorem generate_returns_model_text_witness :
    llmOk 0 (GeneratorAgent.initialRequest qdSample) = some "OK" ∧
    (GeneratorAgent.generate_initial_response llmOk ⟨qdSample, 0, []⟩).1 = "OK" :=
  ⟨rfl, generate_returns_model_text llmOk ⟨qdSample, 0, []⟩ "OK" rfl⟩

/-- Claim C6: the pipeline is deterministic — two runs against remote-call
layers that answer every request identically produce identical outputs (and
identical traces and final states). -/
theorem pipeline_deterministic (llm1 llm2 : Llm) (qd : QuestionInput)
    (h : ∀ n r, llm1 n r = llm2 n r) :
    process_question_with_agents llm1 qd = process_question_with_agents llm2 qd := by
  have heq : llm1 = llm2 := funext fun n => funext fun r => h n r
  rw [heq]

/-- Witness for C6 at a concrete deterministic behaviour. -/
theorem pipeline_deterministic_witness :
    (∀ (n : Nat) (r : Request), llmOk n r = llmOk n r) ∧
    process_question_with_agents llmOk qdSample =
      process_question_with_agents llmOk qdSample :=
  ⟨fun _ _ => rfl, pipeline_deterministic llmOk llmOk qdSample fun _ _ => rfl⟩

/-- Claim C7: every invocation issues exactly 10 remote calls, in strict
sequential order: the generate request, then the 8 probe requests in
probe-list order, then the synthesize request — nothing else. -/
theorem pipeline_ten_calls_in_order (llm : Llm) (qd : QuestionInput) :
    (process_question_with_agents llm qd).2.trace =
      GeneratorAgent.initialRequest qd ::
        (VerifierAgent.probing_questions.map
            (VerifierAgent.probingRequest qd.question
              ((process_question_with_agents llm qd).1.initial_response)) ++
          [ReasonerAgent.finalRequest qd.question
            ((process_question_with_agents llm qd).1.initial_response)
            (ReasonerAgent.analyze_probing_results
              ((process_question_with_agents llm qd).1.probing_results))]) ∧
    (process_question_with_agents llm qd).2.trace.length = 10 ∧
    (process_question_with_agents llm qd).2.idx = 10 := by
  rw [process_spec]
  refine ⟨rfl, ?_, rfl⟩
  show (pipeTrace llm qd).length = 10
  rw [pipeTrace]
  simp [probing_questions_length]

/-- Claim C9: the question input is immutable across a pipeline run — the
threaded caller-owned question data (question string and options mapping) is
unchanged when `process_question_with_agents` returns. -/
theorem question_input_immutable (llm : Llm) (qd : QuestionInput) :
    (process_question_with_agents llm qd).2.questionData = qd ∧
    (process_question_with_agents llm qd).2.questionData.question = qd.question ∧
    (process_question_with_agents llm qd).2.questionData.options = qd.options := by
  rw [process_spec]
  exact ⟨rfl, rfl, rfl⟩

/-- Counterexample to C2 as stated: with an always-failing remote layer the
output is fully shaped, but not every field reads the sentinel — the
question field still holds the input question. -/
theorem all_fail_not_all_sentinel :
    (process_question_with_agents llmNone qdSample).1.question ≠ noValidResponse := by
  rw [process_spec]
  show qdSample.question ≠ noValidResponse
  decide

/-- Claim C2 (amended): if every remote call fails, the pipeline still
returns a fully-shaped output (the embedding is a total function) in which
every generated field reads the sentinel: the initial response and final
assessment are the sentinel, the probing results still carry the 8 probe
keys with every value the sentinel, and the question field echoes the input
question. -/
theorem all_fail_sentinel_fields (llm : Llm) (qd : QuestionInput)
    (hfail : ∀ n r, llm n r = none) :
    (process_question_with_agents llm qd).1.initial_response = noValidResponse ∧
    (process_question_with_agents llm qd).1.final_assessment = noValidResponse ∧
    (∀ kv ∈ (process_question_with_agents llm qd).1.probing_results,
      kv.2 = noValidResponse) ∧
    ((process_question_with_agents llm qd).1.probing_results).map Prod.fst =
      VerifierAgent.probing_questions ∧
    (process_question_with_agents llm qd).1.question = qd.question := by
  refine ⟨?_, ?_, ?_, ?_, ?_⟩
  · rw [process_spec]
    show genAnswer llm qd = noValidResponse
    rw [genAnswer, hfail]
    rfl
  · rw [process_spec]
    show pipeFinal llm qd = noValidResponse
    rw [pipeFinal, hfail]
    rfl
  · rw [process_spec]
    show ∀ kv ∈ pipeProbes llm qd, kv.2 = noValidResponse
    rw [pipeProbes]
    exact probeSpecList_all_fail llm qd.question (genAnswer llm qd) hfail
      VerifierAgent.probing_questions 1
  · rw [process_spec]
    exact probeSpecList_map_fst llm qd.question (genAnswer llm qd)
      VerifierAgent.probing_questions 1
  · rw [process_spec]

/-- Witness for the amended C2 at the always-failing behaviour. -/
theorem all_fail_sentinel_fields_witness :
    (∀ (n : Nat) (r : Request), llmNone n r = none) ∧
    ((process_question_with_agents llmNone qdSample).1.initial_response = noValidResponse ∧
     (process_question_with_agents llmNone qdSample).1.final_assessment = noValidResponse ∧
     (∀ kv ∈ (process_question_with_agents llmNone qdSample).1.probing_results,
       kv.2 = noValidResponse) ∧
     ((process_question_with_agents llmNone qdSample).1.probing_results).map Prod.fst =
       VerifierAgent.probing_questions ∧
     (process_question_with_agents llmNone qdSample).1.question = qdSample.question) :=
  ⟨fun _ _ => rfl, all_fail_sentinel_fields llmNone qdSample fun _ _ => rfl⟩


/-- Claim C3: `analyze_probing_results` is a pure, order-preserving
transform: on any mapping (distinct keys) it maps each entry value `v` to
`"Analysis of: " ++ v`, keeps exactly the input keys in input order, sends
each key's looked-up value to its wrapped form, and sends the empty mapping
to the empty mapping. -/
theorem analyze_pure_order_preserving (r : List (String × String))
    (hnd : (r.map Prod.fst).Nodup) :
    ReasonerAgent.analyze_probing_results r =
      r.map (fun kv => (kv.1, "Analysis of: " ++ kv.2)) ∧
    (ReasonerAgent.analyze_probing_results r).map Prod.fst = r.map Prod.fst ∧
    (∀ k v, List.lookup k r = some v →
      List.lookup k (ReasonerAgent.analyze_probing_results r) =
        some ("Analysis of: " ++ v)) ∧
    ReasonerAgent.analyze_probing_results [] = [] := by
  have hmap := analyze_eq_map r hnd
  refine ⟨hmap, ?_, ?_, rfl⟩
  · rw [hmap, List.map_map]
    rfl
  · intro k v h
    rw [hmap]
    exact lookup_map_value (fun t => "Analysis of: " ++ t) r k v h

/-- Witness for C3 at a concrete two-entry mapping. -/
theorem analyze_pure_order_preserving_witness :
    ((resultsSample.map Prod.fst).Nodup) ∧
    (ReasonerAgent.analyze_probing_results resultsSample =
      resultsSample.map (fun kv => (kv.1, "Analysis of: " ++ kv.2)) ∧
    (ReasonerAgent.analyze_probing_results resultsSample).map Prod.fst =
      resultsSample.map Prod.fst ∧
    (∀ k v, List.lookup k resultsSample = some v →
      List.lookup k (ReasonerAgent.analyze_probing_results resultsSample) =
        some ("Analysis of: " ++ v)) ∧
    ReasonerAgent.analyze_probing_results [] = []) :=
  ⟨by decide, analyze_pure_order_preserving resultsSample (by decide)⟩

theorem joinWith_cons (sep x : String) (l : List String) :
    joinWith sep (x :: l) = x ++ (if l.isEmpty then "" else sep ++ joinWith sep l) := by
  cases l with
  | nil => simp [joinWith]
  | cons y ys => simp [joinWith, String.append_assoc]

/-- Claim C5: probe calls are failure-isolated.  If the remote layer fails
at probe `i`'s call (index `1 + i`) and otherwise behaves like a second
layer, then the results carry the sentinel at key `i` only, every other
probe entry is unchanged relative to the second layer, and all 10 calls are
still issued, the first 9 (generate plus all 8 probes) identical under the
two layers. -/
theorem probe_failure_isolated (llm1 llm2 : Llm) (qd : QuestionInput)
    (i : Nat) (probe : String)
    (hp : VerifierAgent.probing_questions[i]? = some probe)
    (hagree : ∀ n r, n ≠ 1 + i → llm1 n r = llm2 n r)
    (hfail : ∀ r, llm1 (1 + i) r = none) :
    ((process_question_with_agents llm1 qd).1.probing_results)[i]? =
      some (probe, noValidResponse) ∧
    (∀ j, j ≠ i →
      ((process_question_with_agents llm1 qd).1.probing_results)[j]? =
        ((process_question_with_agents llm2 qd).1.probing_results)[j]?) ∧
    (process_question_with_agents llm1 qd).2.trace.length = 10 ∧
    (process_question_with_agents llm1 qd).2.trace.take 9 =
      (process_question_with_agents llm2 qd).2.trace.take 9 := by
  have hgen : genAnswer llm1 qd = genAnswer llm2 qd := by
    rw [genAnswer, genAnswer, hagree 0 _ (by omega)]
  refine ⟨?_, ?_, ?_, ?_⟩
  · rw [process_spec]
    show (pipeProbes llm1 qd)[i]? = _
    rw [pipeProbes, probeSpecList_getElem, hp]
    simp [probeAnswer, respText, hfail]
  · intro j hj
    rw [process_spec, process_spec]
    show (pipeProbes llm1 qd)[j]? = (pipeProbes llm2 qd)[j]?
    rw [pipeProbes, pipeProbes, probeSpecList_getElem, probeSpecList_getElem, hgen]
    cases hpj : VerifierAgent.probing_questions[j]? with
    | none => rfl
    | some p =>
      simp only [Option.map_some']
      rw [probeAnswer, probeAnswer, hagree (1 + j) _ (by omega)]
  · rw [process_spec]
    show (pipeTrace llm1 qd).length = 10
    rw [pipeTrace]
    simp [probing_questions_length]
  · rw [process_spec, process_spec]
    show (pipeTrace llm1 qd).take 9 = (pipeTrace llm2 qd).take 9
    rw [pipeTrace, pipeTrace, hgen]
    have hlen : (VerifierAgent.probing_questions.map
        (VerifierAgent.probingRequest qd.question (genAnswer llm2 qd))).length = 8 := by
      simp [probing_questions_length]
    rw [show (9 : Nat) = 8 + 1 from rfl, List.take_succ_cons, List.take_succ_cons,
      List.take_left' hlen, List.take_left' hlen]

/-- Witness for C5: a behaviour failing exactly at call index 1 (the first
probe) against the all-`"OK"` behaviour. -/
theorem probe_failure_isolated_witness :
    VerifierAgent.probing_questions[0]? =
      some "What are the key factors that led you to this conclusion by ruling out the other options?" ∧
    (∀ (n : Nat) (r : Request), n ≠ 1 + 0 → llmFailAt1 n r = llmOk n r) ∧
    (∀ r : Request, llmFailAt1 (1 + 0) r = none) ∧
    (((process_question_with_agents llmFailAt1 qdSample).1.probing_results)[0]? =
      some ("What are the key factors that led you to this conclusion by ruling out the other options?",
        noValidResponse) ∧
    (∀ j, j ≠ 0 →
      ((process_question_with_agents llmFailAt1 qdSample).1.probing_results)[j]? =
        ((process_question_with_agents llmOk qdSample).1.probing_results)[j]?) ∧
    (process_question_with_agents llmFailAt1 qdSample).2.trace.length = 10 ∧
    (process_question_with_agents llmFailAt1 qdSample).2.trace.take 9 =
      (process_question_with_agents llmOk qdSample).2.trace.take 9) := by
  refine ⟨rfl, ?_, fun r => rfl, ?_⟩
  · intro n r hn
    show (if n = 1 then none else some "OK") = some "OK"
    rw [if_neg (by omega)]
  · exact probe_failure_isolated llmFailAt1 llmOk qdSample 0 _ rfl
      (fun n r hn => by
        show (if n = 1 then none else some "OK") = some "OK"
        rw [if_neg (by omega)])
      (fun r => rfl)

/-- Claim C8: `extract_options` formats any options mapping as the
newline-joined `"label: text"` lines in mapping order; the empty mapping
yields the empty string, hence a generate prompt with an empty options
section, and the pipeline on an empty-options input still completes with the
8 probe entries. -/
theorem extract_options_format_and_empty (llm : Llm) (q k v : String)
    (rest : List (String × String)) :
    GeneratorAgent.extract_options ((k, v) :: rest) =
      (k ++ ": " ++ v) ++
        (if rest.isEmpty then "" else "\n" ++ GeneratorAgent.extract_options rest) ∧
    GeneratorAgent.extract_options [] = "" ∧
    GeneratorAgent.initialPrompt q (GeneratorAgent.extract_options []) =
      "Question:\n" ++ q ++ "\n\nOptions:\n" ++
        "\n\nYou are a medical expert with wide range of knowledge, your each and every decision and answer is crucial and must be accurate and onpoint , refer internet and all the available knowledge resources and analyze each option carefully and select only one best option (A, B, C, D, or E) which you think its right according to the question. Explain your reasoning in very short and crisp points." ∧
    ((process_question_with_agents llm { question := q, options := [] }).1.probing_results).map
        Prod.fst = VerifierAgent.probing_questions ∧
    ((process_question_with_agents llm { question := q, options := [] }).1.probing_results).length =
      8 := by
  refine ⟨?_, rfl, ?_, ?_, ?_⟩
  · show joinWith "\n" (((k, v) :: rest).map fun kv => kv.1 ++ ": " ++ kv.2) = _
    rw [List.map_cons, joinWith_cons]
    cases rest <;> simp [GeneratorAgent.extract_options]
  · show GeneratorAgent.initialPrompt q "" = _
    simp only [GeneratorAgent.initialPrompt, String.append_empty]
  · rw [process_spec]
    exact probeSpecList_map_fst llm q (genAnswer llm { question := q, options := [] })
      VerifierAgent.probing_questions 1
  · rw [process_spec]
    show (pipeProbes llm { question := q, options := [] }).length = 8
    rw [pipeProbes, probeSpecList_length]
    rfl

/-- Claim C10: the synthesize stage issues exactly one request whose prompt
is the fixed template with the analysis mapping embedded through the
language's default mapping-to-string conversion (`pyStrDict`), not as
per-entry formatted lines: the dict rendering is brace-delimited with quoted
keys and values, which differs from a newline-joined `"key: value"`
rendering. -/
theorem final_prompt_uses_dict_rendering (llm : Llm)
    (question initial_response : String) (analysis : List (String × String))
    (s : PipeState) :
    (ReasonerAgent.generate_final_assessment llm question initial_response analysis s).2.trace =
      s.trace ++ [ReasonerAgent.finalRequest question initial_response analysis] ∧
    (ReasonerAgent.finalRequest question initial_response analysis).messages =
      [("user",
        "Question: " ++ question ++ "\n\nInitial response: " ++ initial_response ++
          "\n\nBased on the following analysis, provide a final assessment and select only one best and the correct option (A, B, C, D, or E):\n" ++
          pyStrDict analysis)] ∧
    pyStrDict [("k1", "v1"), ("k2", "v2")] =
      "\x7b" ++ quoteS ++ "k1" ++ quoteS ++ ": " ++ quoteS ++ "v1" ++ quoteS ++ ", " ++
        quoteS ++ "k2" ++ quoteS ++ ": " ++ quoteS ++ "v2" ++ quoteS ++ "\x7d" ∧
    pyStrDict [("k1", "v1"), ("k2", "v2")] ≠
      joinWith "\n" ["k1: v1", "k2: v2"] := by
  refine ⟨?_, rfl, by decide, by decide⟩
  rw [generate_final_assessment_eq]
